import Mathlib

/-!
# Verification of the stone-prover orchestration layer (madara-prover-api)

Shallow embedding of `src/stone-prover/src/models.rs` and
`src/stone-prover/src/prover.rs`.

JSON serialization is modelled at the level of `serde_json` values: a Rust
value is serialized to a `Json` tree (serde derive semantics: a struct becomes
an object with one entry per field in declaration order; a unit enum variant
with a `rename` attribute becomes its tag string; `Option::None` becomes
`null`), and deserialization is a partial function from `Json` trees back to
values (fields looked up by name, unknown fields ignored, `Option` fields
defaulting to `None` when the key is missing, integer fields range-checked
against their Rust width).

Rust `u32` fields are modelled as `Nat`, `i32` fields as `Int`; the predicates
`u32Wf` / `i32Wf` carve out exactly the values representable in the Rust
types.  `PathBuf` is modelled as `String` (a UTF-8 path).

The process-invocation layer is modelled over an explicit environment `Env`
describing external behaviour (temporary-directory allocation, per-path write
failures, and the external engine), an explicit filesystem `FS` (a path →
content association list), and an event trace recording file writes, engine
invocations and directory removals.
-/

namespace StoneProver

/-- serde_json value trees (numbers restricted to integers, which is all the
schema uses). -/
inductive Json where
  | null : Json
  | bool : Bool → Json
  | num : Int → Json
  | str : String → Json
  | arr : List Json → Json
  | obj : List (String × Json) → Json

/-- Field lookup in a serialized object, as serde's derived deserializers do:
the first entry with the given key, unknown fields ignored. -/
def getField (fields : List (String × Json)) (key : String) : Option Json :=
  (fields.find? (fun p => p.1 == key)).map (·.2)

/-- `n` is representable as a Rust `u32`. -/
def u32Wf (n : Nat) : Prop := n < 4294967296

instance (n : Nat) : Decidable (u32Wf n) := by unfold u32Wf; infer_instance

/-- `i` is representable as a Rust `i32`. -/
def i32Wf (i : Int) : Prop := -2147483648 ≤ i ∧ i < 2147483648

instance (i : Int) : Decidable (i32Wf i) := by unfold i32Wf; infer_instance

def encodeU32 (n : Nat) : Json := .num n

def decodeU32 : Json → Option Nat
  | .num i => if 0 ≤ i ∧ i < 4294967296 then some i.toNat else none
  | _ => none

def encodeI32 (i : Int) : Json := .num i

def decodeI32 : Json → Option Int
  | .num i => if -2147483648 ≤ i ∧ i < 2147483648 then some i else none
  | _ => none

def encodeBool (b : Bool) : Json := .bool b

def decodeBool : Json → Option Bool
  | .bool b => some b
  | _ => none

def encodeString (s : String) : Json := .str s

def decodeString : Json → Option String
  | .str s => some s
  | _ => none

def encodeList (enc : α → Json) (xs : List α) : Json := .arr (xs.map enc)

def decodeList (dec : Json → Option α) : Json → Option (List α)
  | .arr xs => xs.mapM dec
  | _ => none

/-! ## Schema (`models.rs`) -/

/-- `CachedLdeConfig` (models.rs lines 6–10). -/
structure CachedLdeConfig where
  store_full_lde : Bool
  use_fft_for_eval : Bool
deriving Repr, DecidableEq

/-- `ProverConfig` (models.rs lines 12–18). -/
structure ProverConfig where
  cached_lde_config : CachedLdeConfig
  constraint_polynomial_task_size : Int
  n_out_of_memory_merkle_layers : Int
  table_prover_n_tasks_per_segment : Int
deriving Repr, DecidableEq

/-- `FriParameters` (models.rs lines 20–26). -/
structure FriParameters where
  fri_step_list : List Nat
  last_layer_degree_bound : Nat
  n_queries : Nat
  proof_of_work_bits : Nat
deriving Repr, DecidableEq

/-- `StarkParameters` (models.rs lines 28–32). -/
structure StarkParameters where
  fri : FriParameters
  log_n_cosets : Int
deriving Repr, DecidableEq

/-- `ProverParameters` (models.rs lines 34–39). -/
structure ProverParameters where
  field : String
  stark : StarkParameters
  use_extension_field : Bool
deriving Repr, DecidableEq

/-- `PrivateInput` (models.rs lines 41–49); `PathBuf` modelled as `String`. -/
structure PrivateInput where
  memory_path : String
  trace_path : String
  pedersen : List Nat
  range_check : List Nat
  ecdsa : List Nat
deriving Repr, DecidableEq

/-- `Layout` (models.rs lines 51–69): closed enumeration of eight variants. -/
inductive Layout where
  | Plain
  | Small
  | Dex
  | Recursive
  | Starknet
  | RecursiveLargeOutput
  | AllSolidity
  | StarknetWithKeccak
deriving Repr, DecidableEq

/-- `MemorySegment` (models.rs lines 71–75). -/
structure MemorySegment where
  begin_addr : Nat
  stop_ptr : Nat
deriving Repr, DecidableEq

/-- `MemorySegments` (models.rs lines 77–85). -/
structure MemorySegments where
  program : MemorySegment
  execution : MemorySegment
  output : MemorySegment
  pedersen : MemorySegment
  range_check : MemorySegment
  ecdsa : MemorySegment
deriving Repr, DecidableEq

/-- `MemorySlot` (models.rs lines 87–92). -/
structure MemorySlot where
  address : Nat
  value : String
  page : Nat
deriving Repr, DecidableEq

/-- `PublicInput` (models.rs lines 94–103); the `HashMap<String, u32>` of
`dynamic_params` is modelled as an association list. -/
structure PublicInput where
  layout : Layout
  rc_min : Nat
  rc_max : Nat
  n_steps : Nat
  memory_segments : MemorySegments
  public_memory : List MemorySlot
  dynamic_params : Option (List (String × Nat))
deriving Repr, DecidableEq

/-- `Proof` (models.rs lines 105–109). -/
structure Proof where
  proof_hex : String
deriving Repr, DecidableEq

/-! ## Layout tags (serde `rename` attributes, models.rs lines 53–68) -/

/-- Serialization tag of each `Layout` variant. -/
def layoutToTag : Layout → String
  | .Plain => "plain"
  | .Small => "small"
  | .Dex => "dex"
  | .Recursive => "recursive"
  | .Starknet => "starknet"
  | .RecursiveLargeOutput => "recursive_large_output"
  | .AllSolidity => "all_solidity"
  | .StarknetWithKeccak => "starknet_with_keccak"

/-- Deserialization of a `Layout` tag string: the derived deserializer matches
on exactly the eight renamed tags and rejects anything else. -/
def layoutFromTag (s : String) : Option Layout :=
  if s = "plain" then some .Plain
  else if s = "small" then some .Small
  else if s = "dex" then some .Dex
  else if s = "recursive" then some .Recursive
  else if s = "starknet" then some .Starknet
  else if s = "recursive_large_output" then some .RecursiveLargeOutput
  else if s = "all_solidity" then some .AllSolidity
  else if s = "starknet_with_keccak" then some .StarknetWithKeccak
  else none

def encodeLayout (l : Layout) : Json := .str (layoutToTag l)

def decodeLayout : Json → Option Layout
  | .str s => layoutFromTag s
  | _ => none

/-! ## Entity encoders/decoders (derived serde semantics: struct ↔ object) -/

def encodeCachedLdeConfig (c : CachedLdeConfig) : Json :=
  .obj [("store_full_lde", encodeBool c.store_full_lde),
        ("use_fft_for_eval", encodeBool c.use_fft_for_eval)]

def decodeCachedLdeConfig : Json → Option CachedLdeConfig
  | .obj fields =>
      ((getField fields ("store_full_lde")).bind decodeBool).bind fun sfl =>
      ((getField fields ("use_fft_for_eval")).bind decodeBool).bind fun uffe =>
      some ⟨sfl, uffe⟩
  | _ => none

def encodeProverConfig (c : ProverConfig) : Json :=
  .obj [("cached_lde_config", encodeCachedLdeConfig c.cached_lde_config),
        ("constraint_polynomial_task_size", encodeI32 c.constraint_polynomial_task_size),
        ("n_out_of_memory_merkle_layers", encodeI32 c.n_out_of_memory_merkle_layers),
        ("table_prover_n_tasks_per_segment", encodeI32 c.table_prover_n_tasks_per_segment)]

def decodeProverConfig : Json → Option ProverConfig
  | .obj fields =>
      ((getField fields ("cached_lde_config")).bind decodeCachedLdeConfig).bind fun cached =>
      ((getField fields ("constraint_polynomial_task_size")).bind decodeI32).bind fun cpts =>
      ((getField fields ("n_out_of_memory_merkle_layers")).bind decodeI32).bind fun nooml =>
      ((getField fields ("table_prover_n_tasks_per_segment")).bind decodeI32).bind fun tpnts =>
      some ⟨cached, cpts, nooml, tpnts⟩
  | _ => none

def encodeFriParameters (f : FriParameters) : Json :=
  .obj [("fri_step_list", encodeList encodeU32 f.fri_step_list),
        ("last_layer_degree_bound", encodeU32 f.last_layer_degree_bound),
        ("n_queries", encodeU32 f.n_queries),
        ("proof_of_work_bits", encodeU32 f.proof_of_work_bits)]

def decodeFriParameters : Json → Option FriParameters
  | .obj fields =>
      ((getField fields ("fri_step_list")).bind (decodeList decodeU32)).bind fun fsl =>
      ((getField fields ("last_layer_degree_bound")).bind decodeU32).bind fun lldb =>
      ((getField fields ("n_queries")).bind decodeU32).bind fun nq =>
      ((getField fields ("proof_of_work_bits")).bind decodeU32).bind fun powb =>
      some ⟨fsl, lldb, nq, powb⟩
  | _ => none

def encodeStarkParameters (s : StarkParameters) : Json :=
  .obj [("fri", encodeFriParameters s.fri),
        ("log_n_cosets", encodeI32 s.log_n_cosets)]

def decodeStarkParameters : Json → Option StarkParameters
  | .obj fields =>
      ((getField fields ("fri")).bind decodeFriParameters).bind fun fri =>
      ((getField fields ("log_n_cosets")).bind decodeI32).bind fun lnc =>
      some ⟨fri, lnc⟩
  | _ => none

def encodeProverParameters (p : ProverParameters) : Json :=
  .obj [("field", encodeString p.field),
        ("stark", encodeStarkParameters p.stark),
        ("use_extension_field", encodeBool p.use_extension_field)]

def decodeProverParameters : Json → Option ProverParameters
  | .obj fields =>
      ((getField fields ("field")).bind decodeString).bind fun f =>
      ((getField fields ("stark")).bind decodeStarkParameters).bind fun st =>
      ((getField fields ("use_extension_field")).bind decodeBool).bind fun uef =>
      some ⟨f, st, uef⟩
  | _ => none

def encodePrivateInput (p : PrivateInput) : Json :=
  .obj [("memory_path", encodeString p.memory_path),
        ("trace_path", encodeString p.trace_path),
        ("pedersen", encodeList encodeU32 p.pedersen),
        ("range_check", encodeList encodeU32 p.range_check),
        ("ecdsa", encodeList encodeU32 p.ecdsa)]

def decodePrivateInput : Json → Option PrivateInput
  | .obj fields =>
      ((getField fields ("memory_path")).bind decodeString).bind fun mp =>
      ((getField fields ("trace_path")).bind decodeString).bind fun tp =>
      ((getField fields ("pedersen")).bind (decodeList decodeU32)).bind fun ped =>
      ((getField fields ("range_check")).bind (decodeList decodeU32)).bind fun rc =>
      ((getField fields ("ecdsa")).bind (decodeList decodeU32)).bind fun ec =>
      some ⟨mp, tp, ped, rc, ec⟩
  | _ => none

def encodeMemorySegment (m : MemorySegment) : Json :=
  .obj [("begin_addr", encodeU32 m.begin_addr),
        ("stop_ptr", encodeU32 m.stop_ptr)]

def decodeMemorySegment : Json → Option MemorySegment
  | .obj fields =>
      ((getField fields ("begin_addr")).bind decodeU32).bind fun ba =>
      ((getField fields ("stop_ptr")).bind decodeU32).bind fun sp =>
      some ⟨ba, sp⟩
  | _ => none

def encodeMemorySegments (m : MemorySegments) : Json :=
  .obj [("program", encodeMemorySegment m.program),
        ("execution", encodeMemorySegment m.execution),
        ("output", encodeMemorySegment m.output),
        ("pedersen", encodeMemorySegment m.pedersen),
        ("range_check", encodeMemorySegment m.range_check),
        ("ecdsa", encodeMemorySegment m.ecdsa)]

def decodeMemorySegments : Json → Option MemorySegments
  | .obj fields =>
      ((getField fields ("program")).bind decodeMemorySegment).bind fun prog =>
      ((getField fields ("execution")).bind decodeMemorySegment).bind fun exec =>
      ((getField fields ("output")).bind decodeMemorySegment).bind fun out =>
      ((getField fields ("pedersen")).bind decodeMemorySegment).bind fun ped =>
      ((getField fields ("range_check")).bind decodeMemorySegment).bind fun rc =>
      ((getField fields ("ecdsa")).bind decodeMemorySegment).bind fun ec =>
      some ⟨prog, exec, out, ped, rc, ec⟩
  | _ => none

def encodeMemorySlot (m : MemorySlot) : Json :=
  .obj [("address", encodeU32 m.address),
        ("value", encodeString m.value),
        ("page", encodeU32 m.page)]

def decodeMemorySlot : Json → Option MemorySlot
  | .obj fields =>
      ((getField fields ("address")).bind decodeU32).bind fun a =>
      ((getField fields ("value")).bind decodeString).bind fun v =>
      ((getField fields ("page")).bind decodeU32).bind fun p =>
      some ⟨a, v, p⟩
  | _ => none

/-- `HashMap<String, u32>` serialized as a JSON object. -/
def encodeDynMap (m : List (String × Nat)) : Json :=
  .obj (m.map (fun p => (p.1, encodeU32 p.2)))

def decodeDynMap : Json → Option (List (String × Nat))
  | .obj fields => fields.mapM (fun p => (decodeU32 p.2).map (fun n => (p.1, n)))
  | _ => none

/-- `Option<HashMap<String, u32>>` field: `None` serializes to `null`. -/
def encodeDynParams : Option (List (String × Nat)) → Json
  | none => .null
  | some m => encodeDynMap m

/-- serde semantics for an `Option` field: a missing key and an explicit
`null` both deserialize to `None`. -/
def decodeDynParams : Option Json → Option (Option (List (String × Nat)))
  | none => some none
  | some .null => some none
  | some j => (decodeDynMap j).map some

def encodePublicInput (p : PublicInput) : Json :=
  .obj [("layout", encodeLayout p.layout),
        ("rc_min", encodeU32 p.rc_min),
        ("rc_max", encodeU32 p.rc_max),
        ("n_steps", encodeU32 p.n_steps),
        ("memory_segments", encodeMemorySegments p.memory_segments),
        ("public_memory", encodeList encodeMemorySlot p.public_memory),
        ("dynamic_params", encodeDynParams p.dynamic_params)]

def decodePublicInput : Json → Option PublicInput
  | .obj fields =>
      ((getField fields ("layout")).bind decodeLayout).bind fun lay =>
      ((getField fields ("rc_min")).bind decodeU32).bind fun rcmin =>
      ((getField fields ("rc_max")).bind decodeU32).bind fun rcmax =>
      ((getField fields ("n_steps")).bind decodeU32).bind fun ns =>
      ((getField fields ("memory_segments")).bind decodeMemorySegments).bind fun ms =>
      ((getField fields ("public_memory")).bind (decodeList decodeMemorySlot)).bind fun pm =>
      (decodeDynParams (getField fields ("dynamic_params"))).bind fun dp =>
      some ⟨lay, rcmin, rcmax, ns, ms, pm, dp⟩
  | _ => none

def encodeProof (p : Proof) : Json :=
  .obj [("proof_hex", encodeString p.proof_hex)]

def decodeProof : Json → Option Proof
  | .obj fields =>
      ((getField fields ("proof_hex")).bind decodeString).bind fun ph =>
      some ⟨ph⟩
  | _ => none

/-! ## Well-formedness: the values representable in the Rust types -/

def ProverConfig.Wf (c : ProverConfig) : Prop :=
  i32Wf c.constraint_polynomial_task_size ∧
  i32Wf c.n_out_of_memory_merkle_layers ∧
  i32Wf c.table_prover_n_tasks_per_segment

instance (c : ProverConfig) : Decidable c.Wf := by unfold ProverConfig.Wf; infer_instance

def FriParameters.Wf (f : FriParameters) : Prop :=
  (∀ n ∈ f.fri_step_list, u32Wf n) ∧
  u32Wf f.last_layer_degree_bound ∧ u32Wf f.n_queries ∧ u32Wf f.proof_of_work_bits

instance (f : FriParameters) : Decidable f.Wf := by unfold FriParameters.Wf; infer_instance

def ProverParameters.Wf (p : ProverParameters) : Prop :=
  p.stark.fri.Wf ∧ i32Wf p.stark.log_n_cosets

instance (p : ProverParameters) : Decidable p.Wf := by unfold ProverParameters.Wf; infer_instance

def PrivateInput.Wf (p : PrivateInput) : Prop :=
  (∀ n ∈ p.pedersen, u32Wf n) ∧ (∀ n ∈ p.range_check, u32Wf n) ∧
  (∀ n ∈ p.ecdsa, u32Wf n)

instance (p : PrivateInput) : Decidable p.Wf := by unfold PrivateInput.Wf; infer_instance

def MemorySegment.Wf (m : MemorySegment) : Prop :=
  u32Wf m.begin_addr ∧ u32Wf m.stop_ptr

instance (m : MemorySegment) : Decidable m.Wf := by unfold MemorySegment.Wf; infer_instance

def MemorySegments.Wf (m : MemorySegments) : Prop :=
  m.program.Wf ∧ m.execution.Wf ∧ m.output.Wf ∧ m.pedersen.Wf ∧
  m.range_check.Wf ∧ m.ecdsa.Wf

instance (m : MemorySegments) : Decidable m.Wf := by unfold MemorySegments.Wf; infer_instance

def MemorySlot.Wf (m : MemorySlot) : Prop := u32Wf m.address ∧ u32Wf m.page

instance (m : MemorySlot) : Decidable m.Wf := by unfold MemorySlot.Wf; infer_instance

def PublicInput.Wf (p : PublicInput) : Prop :=
  u32Wf p.rc_min ∧ u32Wf p.rc_max ∧ u32Wf p.n_steps ∧
  p.memory_segments.Wf ∧ (∀ s ∈ p.public_memory, s.Wf) ∧
  (∀ m, p.dynamic_params = some m → ∀ q ∈ m, u32Wf q.2)

instance (p : PublicInput) : Decidable p.Wf := by unfold PublicInput.Wf; infer_instance

/-! ## Process invocation model (`prover.rs`)

The external world is abstracted by an environment `Env`: the result of
`tempfile::tempdir()`, the possible I/O failure of each file write, and the
behaviour of the external `cpu_air_prover` engine.  The filesystem is an
explicit association list from paths to contents, and every run also returns
the trace of observable events (file writes, engine invocations, directory
removals).
-/

/-- The content of a file: raw bytes or a serialized JSON document. -/
inductive FileContent where
  | bin : List Nat → FileContent
  | json : Json → FileContent

/-- Filesystem: association list from absolute paths to file contents. -/
abbrev FS := List (String × FileContent)

def fsWrite (fs : FS) (path : String) (c : FileContent) : FS :=
  (path, c) :: fs.filter (fun e => e.1 != path)

def fsRead (fs : FS) (path : String) : Option FileContent :=
  (fs.find? (fun e => e.1 == path)).map (·.2)

/-- `path` lies inside directory `dir`. -/
def underDir (dir path : String) : Bool := (dir ++ "/").isPrefixOf path

/-- Recursive removal of a directory, as `TempDir`'s destructor performs. -/
def fsRemoveDir (dir : String) (fs : FS) : FS :=
  fs.filter (fun e => ! underDir dir e.1)

/-- `std::process::ExitStatus`: an exit code, or `none` when the child was
killed by a signal. -/
structure ExitStatus where
  code : Option Int
deriving Repr, DecidableEq

/-- `ExitStatus::success()`: true exactly when the exit code is 0. -/
def ExitStatus.success (s : ExitStatus) : Bool := s.code == some 0

/-- `std::process::Output`: captured exit status, stdout and stderr. -/
structure Output where
  status : ExitStatus
  stdout : List Nat
  stderr : List Nat
deriving Repr, DecidableEq

/-- An OS-level I/O error (`std::io::Error`), abstracted to its kind. -/
inductive IoError where
  | notFound
  | permissionDenied
  | other : String → IoError
deriving Repr, DecidableEq

/-- Modelled from the spec: the `ProverError` classification lives in the
repository module `error.rs`, which is not under `src/`.  Per the spec's error
taxonomy (§7) it unifies four distinct kinds of failure: I/O failures during
preparation or result loading, spawn failures of the external engine binary,
non-zero-exit command failures carrying the full captured `Output`, and decode
failures of the output file. -/
inductive ProverError where
  | ioError : IoError → ProverError
  | spawnError : IoError → ProverError
  | commandError : Output → ProverError
  | decodeError : String → ProverError
deriving Repr, DecidableEq

/-- Modelled from the spec: the conversion applied by the `?` operator to an
I/O failure raised while preparing files or reading results (error.rs is not
under `src/`); the spec classifies these as I/O failures. -/
def ProverError.ofPrepIo : IoError → ProverError := ProverError.ioError

/-- Modelled from the spec: the conversion applied by the `?` operator to a
failure of `Command::output()` to start the engine binary (error.rs is not
under `src/`); the spec classifies spawn failures distinctly from both I/O and
command failures. -/
def ProverError.ofSpawnIo : IoError → ProverError := ProverError.spawnError

/-- A child-process invocation: program name and argument list. -/
structure Invocation where
  program : String
  args : List String
deriving Repr, DecidableEq

/-- Behaviour of one engine run: either the spawn itself fails, or the child
completes with a captured `Output`, possibly having written its out-file. -/
inductive EngineResult where
  | spawnFailed : IoError → EngineResult
  | completed : Output → Option FileContent → EngineResult

/-- The external world: `tempdir()` behaviour, per-path write failures, and
the engine's behaviour as a function of the invocation. -/
structure Env where
  tmpdirResult : Except IoError String
  writeErr : String → Option IoError
  engine : Invocation → EngineResult

/-- Observable events of a run. -/
inductive Event where
  | wroteFile : String → FileContent → Event
  | invoked : Invocation → Event
  | removedDir : String → Event

/-- The exact command line built by both `run_prover_from_command_line`
variants (prover.rs lines 29–39 and 69–79): program `cpu_air_prover` with five
named flags. -/
def proverInvocation (public_input_file private_input_file prover_config_file
    prover_parameter_file output_file : String) : Invocation :=
  { program := "cpu_air_prover",
    args := ["--out-file", output_file,
             "--public-input-file", public_input_file,
             "--private-input-file", private_input_file,
             "--prover-config-file", prover_config_file,
             "--parameter-file", prover_parameter_file] }

/-- `run_prover_from_command_line` (prover.rs lines 22–47): spawn the engine,
fail with the spawn-classified error if it cannot start, otherwise succeed
exactly when the exit status is a success and fail with `CommandError`
carrying the full captured output otherwise.  A completed engine run may have
written its out-file. -/
def run_prover_from_command_line (env : Env) (fs : FS)
    (public_input_file private_input_file prover_config_file
     prover_parameter_file output_file : String) :
    Except ProverError Unit × FS × List Event :=
  let inv := proverInvocation public_input_file private_input_file
    prover_config_file prover_parameter_file output_file
  match env.engine inv with
  | .spawnFailed e => (.error (ProverError.ofSpawnIo e), fs, [.invoked inv])
  | .completed out outContent =>
      let fs1 := match outContent with
        | some c => fsWrite fs output_file c
        | none => fs
      if out.status.success then (.ok (), fs1, [.invoked inv])
      else (.error (.commandError out), fs1, [.invoked inv])

/-- `run_prover_from_command_line_async` (prover.rs lines 62–88): the
suspending variant, spawning via `tokio::process::Command`; the suspension is
erased by the embedding. -/
def run_prover_from_command_line_async (env : Env) (fs : FS)
    (public_input_file private_input_file prover_config_file
     parameter_file output_file : String) :
    Except ProverError Unit × FS × List Event :=
  let inv := proverInvocation public_input_file private_input_file
    prover_config_file parameter_file output_file
  match env.engine inv with
  | .spawnFailed e => (.error (ProverError.ofSpawnIo e), fs, [.invoked inv])
  | .completed out outContent =>
      let fs1 := match outContent with
        | some c => fsWrite fs output_file c
        | none => fs
      if out.status.success then (.ok (), fs1, [.invoked inv])
      else (.error (.commandError out), fs1, [.invoked inv])

/-- `ProverWorkingDirectory` (prover.rs lines 90–99).  The `_dir : TempDir`
handle is represented by the directory path `dir`; the Rust fields `_dir`,
`_memory_file` and `_trace_file` keep their names minus the underscore. -/
structure ProverWorkingDirectory where
  dir : String
  public_input_file : String
  private_input_file : String
  memory_file : String
  trace_file : String
  prover_config_file : String
  prover_parameter_file : String
  proof_file : String
deriving Repr, DecidableEq

/-- Sequential file writes; stops at the first failing write.  Each JSON write
models `write_json_to_file` from the missing toolkit module (serialize the
value, write it at the path), each binary write models `std::fs::write`. -/
def writeSeq (env : Env) : FS → List Event → List (String × FileContent) →
    Except IoError Unit × FS × List Event
  | fs, evs, [] => (.ok (), fs, evs)
  | fs, evs, (p, c) :: rest =>
      match env.writeErr p with
      | some e => (.error e, fs, evs)
      | none => writeSeq env (fsWrite fs p c) (evs ++ [.wroteFile p c]) rest

/-- `prepare_prover_files` (prover.rs lines 101–150): allocate a temporary
directory, join the seven fixed filenames, write public input, prover config,
parameters, memory, trace, then build the derived `PrivateInput` from the
just-written memory/trace paths and write it; on any write failure the
`TempDir` local is dropped, removing the directory. -/
def prepare_prover_files (env : Env) (fs : FS) (public_input : PublicInput)
    (memory trace : List Nat) (prover_config : ProverConfig)
    (parameters : ProverParameters) :
    Except IoError ProverWorkingDirectory × FS × List Event :=
  match env.tmpdirResult with
  | .error e => (.error e, fs, [])
  | .ok dir =>
      let public_input_file := dir ++ "/public_input.json"
      let private_input_file := dir ++ "/private_input.json"
      let memory_file := dir ++ "/memory.bin"
      let prover_config_file := dir ++ "/prover_config_file.json"
      let prover_parameter_file := dir ++ "/parameters.json"
      let trace_file := dir ++ "/trace.bin"
      let proof_file := dir ++ "/proof.json"
      let private_input : PrivateInput :=
        { memory_path := memory_file, trace_path := trace_file,
          pedersen := [], range_check := [], ecdsa := [] }
      match writeSeq env fs []
        [(public_input_file, .json (encodePublicInput public_input)),
         (prover_config_file, .json (encodeProverConfig prover_config)),
         (prover_parameter_file, .json (encodeProverParameters parameters)),
         (memory_file, .bin memory),
         (trace_file, .bin trace),
         (private_input_file, .json (encodePrivateInput private_input))] with
      | (.error e, fs1, evs) =>
          (.error e, fsRemoveDir dir fs1, evs ++ [.removedDir dir])
      | (.ok _, fs1, evs) =>
          (.ok { dir := dir, public_input_file := public_input_file,
                 private_input_file := private_input_file,
                 memory_file := memory_file, trace_file := trace_file,
                 prover_config_file := prover_config_file,
                 prover_parameter_file := prover_parameter_file,
                 proof_file := proof_file }, fs1, evs)

/-- Modelled from the spec: `read_json_from_file::<Proof>` from the missing
toolkit module, as used by the Result Reader (§4.3): fails with a decode
error if the file is missing, is not JSON, or does not match the `Proof`
schema. -/
def read_json_from_file (fs : FS) (path : String) : Except ProverError Proof :=
  match fsRead fs path with
  | none => .error (.decodeError ("output file missing"))
  | some (.bin _) => .error (.decodeError ("output file is not JSON"))
  | some (.json j) =>
      match decodeProof j with
      | none => .error (.decodeError ("output does not match the Proof schema"))
      | some p => .ok p

/-- `run_prover` (prover.rs lines 162–184): prepare the working directory,
invoke the engine synchronously, read the proof file; the
`ProverWorkingDirectory` (and with it the temporary directory) is dropped on
every exit path. -/
def run_prover (env : Env) (fs : FS) (public_input : PublicInput)
    (memory trace : List Nat) (prover_config : ProverConfig)
    (parameters : ProverParameters) :
    Except ProverError Proof × FS × List Event :=
  match prepare_prover_files env fs public_input memory trace prover_config
      parameters with
  | (.error e, fs1, evs1) => (.error (ProverError.ofPrepIo e), fs1, evs1)
  | (.ok wd, fs1, evs1) =>
      match run_prover_from_command_line env fs1 wd.public_input_file
          wd.private_input_file wd.prover_config_file wd.prover_parameter_file
          wd.proof_file with
      | (.error e, fs2, evs2) =>
          (.error e, fsRemoveDir wd.dir fs2, evs1 ++ evs2 ++ [.removedDir wd.dir])
      | (.ok _, fs2, evs2) =>
          match read_json_from_file fs2 wd.proof_file with
          | .error e =>
              (.error e, fsRemoveDir wd.dir fs2, evs1 ++ evs2 ++ [.removedDir wd.dir])
          | .ok proof =>
              (.ok proof, fsRemoveDir wd.dir fs2, evs1 ++ evs2 ++ [.removedDir wd.dir])

/-- `run_prover_async` (prover.rs lines 199–222): identical orchestration to
`run_prover` except that the engine is invoked through the suspending
command-line variant. -/
def run_prover_async (env : Env) (fs : FS) (public_input : PublicInput)
    (memory trace : List Nat) (prover_config : ProverConfig)
    (parameters : ProverParameters) :
    Except ProverError Proof × FS × List Event :=
  match prepare_prover_files env fs public_input memory trace prover_config
      parameters with
  | (.error e, fs1, evs1) => (.error (ProverError.ofPrepIo e), fs1, evs1)
  | (.ok wd, fs1, evs1) =>
      match run_prover_from_command_line_async env fs1 wd.public_input_file
          wd.private_input_file wd.prover_config_file wd.prover_parameter_file
          wd.proof_file with
      | (.error e, fs2, evs2) =>
          (.error e, fsRemoveDir wd.dir fs2, evs1 ++ evs2 ++ [.removedDir wd.dir])
      | (.ok _, fs2, evs2) =>
          match read_json_from_file fs2 wd.proof_file with
          | .error e =>
              (.error e, fsRemoveDir wd.dir fs2, evs1 ++ evs2 ++ [.removedDir wd.dir])
          | .ok proof =>
              (.ok proof, fsRemoveDir wd.dir fs2, evs1 ++ evs2 ++ [.removedDir wd.dir])

/-! ## Concrete example values, used by witnesses -/

def exCachedLde : CachedLdeConfig := ⟨true, false⟩

def exProverConfig : ProverConfig := ⟨exCachedLde, 1, 2, 3⟩

def exFri : FriParameters := ⟨[1, 2], 64, 18, 24⟩

def exProverParameters : ProverParameters := ⟨"PrimeField0", ⟨exFri, 4⟩, false⟩

def exSegment : MemorySegment := ⟨0, 10⟩

def exSegments : MemorySegments :=
  ⟨exSegment, exSegment, exSegment, exSegment, exSegment, exSegment⟩

def exPublicInput : PublicInput :=
  ⟨.Small, 0, 65535, 512, exSegments, [⟨0, "0x1", 0⟩], none⟩

def exPrivateInput : PrivateInput := ⟨"/m.bin", "/t.bin", [], [], []⟩

def exProof : Proof := ⟨"0x1234"⟩

def exOutputOk : Output := ⟨⟨some 0⟩, [], []⟩

def exOutputFail : Output := ⟨⟨some 1⟩, [104, 105], [98, 97, 100]⟩

/-- A fully working external world: the temp directory allocates, every write
succeeds, and the engine exits 0 after writing a valid proof file. -/
def exEnvOk : Env :=
  { tmpdirResult := .ok ("/tmp/work"), writeErr := fun _ => none,
    engine := fun _ => .completed exOutputOk (some (.json (encodeProof exProof))) }

/-- A world where the engine binary is absent: every spawn fails. -/
def exEnvSpawnFail : Env :=
  { tmpdirResult := .ok ("/tmp/work"), writeErr := fun _ => none,
    engine := fun _ => .spawnFailed .notFound }

/-- A world where the engine starts but exits with status 1. -/
def exEnvExitOne : Env :=
  { tmpdirResult := .ok ("/tmp/work"), writeErr := fun _ => none,
    engine := fun _ => .completed exOutputFail none }

/-! ## Round-trip lemmas -/

theorem getField_cons_self (k : String) (v : Json) (rest : List (String × Json)) :
    getField ((k, v) :: rest) k = some v := by
  simp [getField, List.find?]

theorem getField_cons_of_ne (k k' : String) (v : Json) (rest : List (String × Json))
    (h : (k' == k) = false) : getField ((k', v) :: rest) k = getField rest k := by
  simp [getField, List.find?, h]

theorem decodeU32_encodeU32 (n : Nat) (h : u32Wf n) :
    decodeU32 (encodeU32 n) = some n := by
  unfold u32Wf at h
  simp only [encodeU32, decodeU32]
  rw [if_pos ⟨Int.ofNat_nonneg n, by exact_mod_cast h⟩]
  simp

theorem decodeI32_encodeI32 (i : Int) (h : i32Wf i) :
    decodeI32 (encodeI32 i) = some i := by
  unfold i32Wf at h
  simp only [encodeI32, decodeI32]
  rw [if_pos h]

theorem decodeBool_encodeBool (b : Bool) : decodeBool (encodeBool b) = some b := rfl

theorem decodeString_encodeString (s : String) :
    decodeString (encodeString s) = some s := rfl

theorem mapM_map_of_inverse {α β : Type} (dec : β → Option α) (enc : α → β)
    (xs : List α) (h : ∀ x ∈ xs, dec (enc x) = some x) :
    (xs.map enc).mapM dec = some xs := by
  induction xs with
  | nil => rfl
  | cons x xs ih =>
      simp only [List.map_cons, List.mapM_cons, h x (List.mem_cons_self x xs),
        Option.pure_def, Option.bind_eq_bind, Option.some_bind,
        ih (fun y hy => h y (List.mem_cons_of_mem x hy))]

theorem decodeList_encodeList {α : Type} (dec : Json → Option α) (enc : α → Json)
    (xs : List α) (h : ∀ x ∈ xs, dec (enc x) = some x) :
    decodeList dec (encodeList enc xs) = some xs := by
  unfold decodeList encodeList
  exact mapM_map_of_inverse dec enc xs h

theorem decode_encode_memorySegment (m : MemorySegment) (h : m.Wf) :
    decodeMemorySegment (encodeMemorySegment m) = some m := by
  obtain ⟨h1, h2⟩ := h
  simp only [encodeMemorySegment, decodeMemorySegment]
  rw [getField_cons_self]
  rw [getField_cons_of_ne _ _ _ _ (by decide), getField_cons_self]
  rw [Option.some_bind, Option.some_bind, decodeU32_encodeU32 _ h1,
    decodeU32_encodeU32 _ h2, Option.some_bind, Option.some_bind]

theorem decodeLayout_encodeLayout (l : Layout) :
    decodeLayout (encodeLayout l) = some l := by
  cases l <;> rfl

theorem decode_encode_cachedLdeConfig (c : CachedLdeConfig) :
    decodeCachedLdeConfig (encodeCachedLdeConfig c) = some c := by
  simp only [encodeCachedLdeConfig, decodeCachedLdeConfig]
  rw [getField_cons_self]
  rw [getField_cons_of_ne _ _ _ _ (by decide), getField_cons_self]
  rw [Option.some_bind, decodeBool_encodeBool, Option.some_bind,
    Option.some_bind, decodeBool_encodeBool, Option.some_bind]

theorem decode_encode_proverConfig (c : ProverConfig) (h : c.Wf) :
    decodeProverConfig (encodeProverConfig c) = some c := by
  obtain ⟨h1, h2, h3⟩ := h
  simp only [encodeProverConfig, decodeProverConfig]
  rw [getField_cons_self]
  rw [getField_cons_of_ne _ _ _ _ (by decide), getField_cons_self]
  rw [getField_cons_of_ne _ _ _ _ (by decide), getField_cons_of_ne _ _ _ _ (by decide),
    getField_cons_self]
  rw [getField_cons_of_ne _ _ _ _ (by decide), getField_cons_of_ne _ _ _ _ (by decide),
    getField_cons_of_ne _ _ _ _ (by decide), getField_cons_self]
  rw [Option.some_bind, decode_encode_cachedLdeConfig, Option.some_bind]
  rw [Option.some_bind, decodeI32_encodeI32 _ h1, Option.some_bind]
  rw [Option.some_bind, decodeI32_encodeI32 _ h2, Option.some_bind]
  rw [Option.some_bind, decodeI32_encodeI32 _ h3, Option.some_bind]

theorem decodeListU32_enc (xs : List Nat) (h : ∀ n ∈ xs, u32Wf n) :
    decodeList decodeU32 (encodeList encodeU32 xs) = some xs :=
  decodeList_encodeList decodeU32 encodeU32 xs
    (fun n hn => decodeU32_encodeU32 n (h n hn))

theorem decode_encode_friParameters (f : FriParameters) (h : f.Wf) :
    decodeFriParameters (encodeFriParameters f) = some f := by
  obtain ⟨hl, h2, h3, h4⟩ := h
  simp only [encodeFriParameters, decodeFriParameters]
  rw [getField_cons_self]
  rw [getField_cons_of_ne _ _ _ _ (by decide), getField_cons_self]
  rw [getField_cons_of_ne _ _ _ _ (by decide), getField_cons_of_ne _ _ _ _ (by decide),
    getField_cons_self]
  rw [getField_cons_of_ne _ _ _ _ (by decide), getField_cons_of_ne _ _ _ _ (by decide),
    getField_cons_of_ne _ _ _ _ (by decide), getField_cons_self]
  rw [Option.some_bind, decodeListU32_enc _ hl, Option.some_bind]
  rw [Option.some_bind, decodeU32_encodeU32 _ h2, Option.some_bind]
  rw [Option.some_bind, decodeU32_encodeU32 _ h3, Option.some_bind]
  rw [Option.some_bind, decodeU32_encodeU32 _ h4, Option.some_bind]

theorem decode_encode_starkParameters (s : StarkParameters) (hf : s.fri.Wf)
    (hl : i32Wf s.log_n_cosets) :
    decodeStarkParameters (encodeStarkParameters s) = some s := by
  simp only [encodeStarkParameters, decodeStarkParameters]
  rw [getField_cons_self]
  rw [getField_cons_of_ne _ _ _ _ (by decide), getField_cons_self]
  rw [Option.some_bind, decode_encode_friParameters _ hf, Option.some_bind]
  rw [Option.some_bind, decodeI32_encodeI32 _ hl, Option.some_bind]

theorem decode_encode_proverParameters (p : ProverParameters) (h : p.Wf) :
    decodeProverParameters (encodeProverParameters p) = some p := by
  obtain ⟨hf, hl⟩ := h
  simp only [encodeProverParameters, decodeProverParameters]
  rw [getField_cons_self]
  rw [getField_cons_of_ne _ _ _ _ (by decide), getField_cons_self]
  rw [getField_cons_of_ne _ _ _ _ (by decide), getField_cons_of_ne _ _ _ _ (by decide),
    getField_cons_self]
  rw [Option.some_bind, decodeString_encodeString, Option.some_bind]
  rw [Option.some_bind, decode_encode_starkParameters _ hf hl, Option.some_bind]
  rw [Option.some_bind, decodeBool_encodeBool, Option.some_bind]

theorem decode_encode_privateInput (p : PrivateInput) (h : p.Wf) :
    decodePrivateInput (encodePrivateInput p) = some p := by
  obtain ⟨h1, h2, h3⟩ := h
  simp only [encodePrivateInput, decodePrivateInput]
  rw [getField_cons_self]
  rw [getField_cons_of_ne _ _ _ _ (by decide), getField_cons_self]
  rw [getField_cons_of_ne _ _ _ _ (by decide), getField_cons_of_ne _ _ _ _ (by decide),
    getField_cons_self]
  rw [getField_cons_of_ne _ _ _ _ (by decide), getField_cons_of_ne _ _ _ _ (by decide),
    getField_cons_of_ne _ _ _ _ (by decide), getField_cons_self]
  rw [getField_cons_of_ne _ _ _ _ (by decide), getField_cons_of_ne _ _ _ _ (by decide),
    getField_cons_of_ne _ _ _ _ (by decide), getField_cons_of_ne _ _ _ _ (by decide),
    getField_cons_self]
  rw [Option.some_bind, decodeString_encodeString, Option.some_bind]
  rw [Option.some_bind, decodeString_encodeString, Option.some_bind]
  rw [Option.some_bind, decodeListU32_enc _ h1, Option.some_bind]
  rw [Option.some_bind, decodeListU32_enc _ h2, Option.some_bind]
  rw [Option.some_bind, decodeListU32_enc _ h3, Option.some_bind]

theorem decode_encode_memorySegments (m : MemorySegments) (h : m.Wf) :
    decodeMemorySegments (encodeMemorySegments m) = some m := by
  obtain ⟨h1, h2, h3, h4, h5, h6⟩ := h
  simp only [encodeMemorySegments, decodeMemorySegments]
  rw [getField_cons_self]
  rw [getField_cons_of_ne _ _ _ _ (by decide), getField_cons_self]
  rw [getField_cons_of_ne _ _ _ _ (by decide), getField_cons_of_ne _ _ _ _ (by decide),
    getField_cons_self]
  rw [getField_cons_of_ne _ _ _ _ (by decide), getField_cons_of_ne _ _ _ _ (by decide),
    getField_cons_of_ne _ _ _ _ (by decide), getField_cons_self]
  rw [getField_cons_of_ne _ _ _ _ (by decide), getField_cons_of_ne _ _ _ _ (by decide),
    getField_cons_of_ne _ _ _ _ (by decide), getField_cons_of_ne _ _ _ _ (by decide),
    getField_cons_self]
  rw [getField_cons_of_ne _ _ _ _ (by decide), getField_cons_of_ne _ _ _ _ (by decide),
    getField_cons_of_ne _ _ _ _ (by decide), getField_cons_of_ne _ _ _ _ (by decide),
    getField_cons_of_ne _ _ _ _ (by decide), getField_cons_self]
  rw [Option.some_bind, decode_encode_memorySegment _ h1, Option.some_bind]
  rw [Option.some_bind, decode_encode_memorySegment _ h2, Option.some_bind]
  rw [Option.some_bind, decode_encode_memorySegment _ h3, Option.some_bind]
  rw [Option.some_bind, decode_encode_memorySegment _ h4, Option.some_bind]
  rw [Option.some_bind, decode_encode_memorySegment _ h5, Option.some_bind]
  rw [Option.some_bind, decode_encode_memorySegment _ h6, Option.some_bind]

theorem decode_encode_memorySlot (m : MemorySlot) (h : m.Wf) :
    decodeMemorySlot (encodeMemorySlot m) = some m := by
  obtain ⟨h1, h2⟩ := h
  simp only [encodeMemorySlot, decodeMemorySlot]
  rw [getField_cons_self]
  rw [getField_cons_of_ne _ _ _ _ (by decide), getField_cons_self]
  rw [getField_cons_of_ne _ _ _ _ (by decide), getField_cons_of_ne _ _ _ _ (by decide),
    getField_cons_self]
  rw [Option.some_bind, decodeU32_encodeU32 _ h1, Option.some_bind]
  rw [Option.some_bind, decodeString_encodeString, Option.some_bind]
  rw [Option.some_bind, decodeU32_encodeU32 _ h2, Option.some_bind]

theorem decodeDynMap_enc (m : List (String × Nat)) (h : ∀ q ∈ m, u32Wf q.2) :
    decodeDynMap (encodeDynMap m) = some m := by
  simp only [encodeDynMap, decodeDynMap]
  refine mapM_map_of_inverse _ _ m (fun p hp => ?_)
  dsimp only
  rw [decodeU32_encodeU32 _ (h p hp), Option.map_some']

theorem decodeDynParams_enc (dp : Option (List (String × Nat)))
    (h : ∀ m, dp = some m → ∀ q ∈ m, u32Wf q.2) :
    decodeDynParams (some (encodeDynParams dp)) = some dp := by
  cases dp with
  | none => rfl
  | some m =>
      have hm := h m rfl
      show decodeDynParams (some (encodeDynMap m)) = some (some m)
      rw [show encodeDynMap m = Json.obj (m.map (fun p => (p.1, encodeU32 p.2))) from rfl]
      rw [show decodeDynParams (some (Json.obj (m.map (fun p => (p.1, encodeU32 p.2))))) =
        (decodeDynMap (Json.obj (m.map (fun p => (p.1, encodeU32 p.2))))).map some from rfl]
      rw [show Json.obj (m.map (fun p => (p.1, encodeU32 p.2))) = encodeDynMap m from rfl,
        decodeDynMap_enc m hm, Option.map_some']

theorem decode_encode_publicInput (p : PublicInput) (h : p.Wf) :
    decodePublicInput (encodePublicInput p) = some p := by
  obtain ⟨h1, h2, h3, hms, hpm, hdp⟩ := h
  simp only [encodePublicInput, decodePublicInput]
  rw [getField_cons_self]
  rw [getField_cons_of_ne _ _ _ _ (by decide), getField_cons_self]
  rw [getField_cons_of_ne _ _ _ _ (by decide), getField_cons_of_ne _ _ _ _ (by decide),
    getField_cons_self]
  rw [getField_cons_of_ne _ _ _ _ (by decide), getField_cons_of_ne _ _ _ _ (by decide),
    getField_cons_of_ne _ _ _ _ (by decide), getField_cons_self]
  rw [getField_cons_of_ne _ _ _ _ (by decide), getField_cons_of_ne _ _ _ _ (by decide),
    getField_cons_of_ne _ _ _ _ (by decide), getField_cons_of_ne _ _ _ _ (by decide),
    getField_cons_self]
  rw [getField_cons_of_ne _ _ _ _ (by decide), getField_cons_of_ne _ _ _ _ (by decide),
    getField_cons_of_ne _ _ _ _ (by decide), getField_cons_of_ne _ _ _ _ (by decide),
    getField_cons_of_ne _ _ _ _ (by decide), getField_cons_self]
  rw [getField_cons_of_ne _ _ _ _ (by decide), getField_cons_of_ne _ _ _ _ (by decide),
    getField_cons_of_ne _ _ _ _ (by decide), getField_cons_of_ne _ _ _ _ (by decide),
    getField_cons_of_ne _ _ _ _ (by decide), getField_cons_of_ne _ _ _ _ (by decide),
    getField_cons_self]
  rw [Option.some_bind, decodeLayout_encodeLayout, Option.some_bind]
  rw [Option.some_bind, decodeU32_encodeU32 _ h1, Option.some_bind]
  rw [Option.some_bind, decodeU32_encodeU32 _ h2, Option.some_bind]
  rw [Option.some_bind, decodeU32_encodeU32 _ h3, Option.some_bind]
  rw [Option.some_bind, decode_encode_memorySegments _ hms, Option.some_bind]
  rw [Option.some_bind, decodeList_encodeList decodeMemorySlot encodeMemorySlot _
    (fun s hs => decode_encode_memorySlot s (hpm s hs)), Option.some_bind]
  rw [decodeDynParams_enc _ hdp, Option.some_bind]

theorem decode_encode_proof (f : Proof) : decodeProof (encodeProof f) = some f := by
  simp only [encodeProof, decodeProof]
  rw [getField_cons_self]
  rw [Option.some_bind, decodeString_encodeString, Option.some_bind]

/-! ## Claims -/

/-- C1: for every valid input tuple and the same external engine behaviour,
the blocking orchestration `run_prover` and the suspending orchestration
`run_prover_async` are behaviorally indistinguishable except for their
concurrency contract: same result (a bit-identical `Proof` on success, the
same classified error on failure), same final filesystem, and the same event
trace (files written, program name and flags passed). -/
theorem claim_C1_sync_async_equivalent (env : Env) (fs : FS)
    (public_input : PublicInput) (memory trace : List Nat)
    (prover_config : ProverConfig) (parameters : ProverParameters) :
    run_prover env fs public_input memory trace prover_config parameters =
      run_prover_async env fs public_input memory trace prover_config parameters := rfl

/-- C8: `Layout` deserialization accepts exactly the eight tag strings, each
mapping to its corresponding variant, and fails for every other string. -/
theorem claim_C8_layout_tags :
    (∀ s : String, (layoutFromTag s).isSome = true ↔
      s = "plain" ∨ s = "small" ∨ s = "dex" ∨ s = "recursive" ∨ s = "starknet" ∨
      s = "recursive_large_output" ∨ s = "all_solidity" ∨
      s = "starknet_with_keccak") ∧
    layoutFromTag ("plain") = some .Plain ∧
    layoutFromTag ("small") = some .Small ∧
    layoutFromTag ("dex") = some .Dex ∧
    layoutFromTag ("recursive") = some .Recursive ∧
    layoutFromTag ("starknet") = some .Starknet ∧
    layoutFromTag ("recursive_large_output") = some .RecursiveLargeOutput ∧
    layoutFromTag ("all_solidity") = some .AllSolidity ∧
    layoutFromTag ("starknet_with_keccak") = some .StarknetWithKeccak := by
  refine ⟨fun s => ?_, rfl, rfl, rfl, rfl, rfl, rfl, rfl, rfl⟩
  unfold layoutFromTag
  split_ifs with h1 h2 h3 h4 h5 h6 h7 h8 <;> simp_all

/-- C9: serializing then deserializing any schema entity (`ProverConfig`,
`ProverParameters`, `PublicInput`, `PrivateInput`, `Proof`) yields the
original value; the `Wf` hypotheses state that every numeric field fits its
Rust integer width, which holds of every Rust value of these types. -/
theorem claim_C9_roundtrip :
    (∀ c : ProverConfig, c.Wf → decodeProverConfig (encodeProverConfig c) = some c) ∧
    (∀ p : ProverParameters, p.Wf →
      decodeProverParameters (encodeProverParameters p) = some p) ∧
    (∀ p : PublicInput, p.Wf → decodePublicInput (encodePublicInput p) = some p) ∧
    (∀ p : PrivateInput, p.Wf → decodePrivateInput (encodePrivateInput p) = some p) ∧
    (∀ p : Proof, decodeProof (encodeProof p) = some p) :=
  ⟨decode_encode_proverConfig, decode_encode_proverParameters,
   decode_encode_publicInput, decode_encode_privateInput, decode_encode_proof⟩

/-- Witness for C9 at concrete entities. -/
theorem claim_C9_roundtrip_witness :
    decodeProverConfig (encodeProverConfig exProverConfig) = some exProverConfig ∧
    decodeProverParameters (encodeProverParameters exProverParameters) =
      some exProverParameters ∧
    decodePublicInput (encodePublicInput exPublicInput) = some exPublicInput ∧
    decodePrivateInput (encodePrivateInput exPrivateInput) = some exPrivateInput ∧
    decodeProof (encodeProof exProof) = some exProof :=
  ⟨claim_C9_roundtrip.1 exProverConfig (by decide),
   claim_C9_roundtrip.2.1 exProverParameters (by decide),
   claim_C9_roundtrip.2.2.1 exPublicInput (by decide),
   claim_C9_roundtrip.2.2.2.1 exPrivateInput (by decide),
   claim_C9_roundtrip.2.2.2.2 exProof⟩

/-- C10: when `dynamic_params` is `None`, serialization emits the
`dynamic_params` key bound to an explicit JSON `null` (never omits it), and
deserializing the serialized document yields `None` again. -/
theorem claim_C10_dynamic_params_null (p : PublicInput)
    (hdp : p.dynamic_params = none) (hwf : p.Wf) :
    encodePublicInput p =
      Json.obj [("layout", encodeLayout p.layout), ("rc_min", encodeU32 p.rc_min),
        ("rc_max", encodeU32 p.rc_max), ("n_steps", encodeU32 p.n_steps),
        ("memory_segments", encodeMemorySegments p.memory_segments),
        ("public_memory", encodeList encodeMemorySlot p.public_memory),
        ("dynamic_params", Json.null)] ∧
    decodeDynParams (some Json.null) = some none ∧
    decodePublicInput (encodePublicInput p) = some p := by
  refine ⟨?_, rfl, decode_encode_publicInput p hwf⟩
  simp [encodePublicInput, encodeDynParams, hdp]

/-- Witness for C10 at a concrete public input with `dynamic_params = none`. -/
theorem claim_C10_dynamic_params_null_witness :
    exPublicInput.dynamic_params = none ∧
    encodePublicInput exPublicInput =
      Json.obj [("layout", encodeLayout exPublicInput.layout),
        ("rc_min", encodeU32 exPublicInput.rc_min),
        ("rc_max", encodeU32 exPublicInput.rc_max),
        ("n_steps", encodeU32 exPublicInput.n_steps),
        ("memory_segments", encodeMemorySegments exPublicInput.memory_segments),
        ("public_memory", encodeList encodeMemorySlot exPublicInput.public_memory),
        ("dynamic_params", Json.null)] ∧
    decodeDynParams (some Json.null) = some none ∧
    decodePublicInput (encodePublicInput exPublicInput) = some exPublicInput :=
  ⟨rfl, claim_C10_dynamic_params_null exPublicInput rfl (by decide)⟩

/-- C3: in both execution modes the invocation succeeds iff the child's exit
status is a success (exit code 0); on any other exit status it fails with a
`CommandError` carrying the full captured output (status, stdout, stderr).
The classification is a function of the exit status alone: the first two
conjuncts hold for every captured stdout/stderr in `out`. -/
theorem claim_C3_exit_status (env : Env) (fs : FS)
    (p1 p2 p3 p4 p5 : String) (out : Output) (oc : Option FileContent)
    (heng : env.engine (proverInvocation p1 p2 p3 p4 p5) = .completed out oc) :
    ((run_prover_from_command_line env fs p1 p2 p3 p4 p5).1 = .ok () ↔
      out.status.success = true) ∧
    ((run_prover_from_command_line_async env fs p1 p2 p3 p4 p5).1 = .ok () ↔
      out.status.success = true) ∧
    (out.status.success = false →
      (run_prover_from_command_line env fs p1 p2 p3 p4 p5).1 =
        .error (.commandError out) ∧
      (run_prover_from_command_line_async env fs p1 p2 p3 p4 p5).1 =
        .error (.commandError out)) ∧
    (out.status.success = true ↔ out.status.code = some 0) := by
  have hsync_iff :
      (run_prover_from_command_line env fs p1 p2 p3 p4 p5).1 = .ok () ↔
        out.status.success = true := by
    simp only [run_prover_from_command_line, heng]
    cases hs : out.status.success <;> simp [hs]
  have hsync_err : out.status.success = false →
      (run_prover_from_command_line env fs p1 p2 p3 p4 p5).1 =
        .error (.commandError out) := by
    intro hf
    simp only [run_prover_from_command_line, heng]
    simp [hf]
  exact ⟨hsync_iff, hsync_iff, fun hf => ⟨hsync_err hf, hsync_err hf⟩,
    by simp [ExitStatus.success]⟩

/-- Witness for C3: a concrete engine run exiting with status 1. -/
theorem claim_C3_exit_status_witness :
    ((run_prover_from_command_line exEnvExitOne [] "a" "b" "c" "d" "e").1 = .ok () ↔
      exOutputFail.status.success = true) ∧
    ((run_prover_from_command_line_async exEnvExitOne [] "a" "b" "c" "d" "e").1 = .ok () ↔
      exOutputFail.status.success = true) ∧
    (exOutputFail.status.success = false →
      (run_prover_from_command_line exEnvExitOne [] "a" "b" "c" "d" "e").1 =
        .error (.commandError exOutputFail) ∧
      (run_prover_from_command_line_async exEnvExitOne [] "a" "b" "c" "d" "e").1 =
        .error (.commandError exOutputFail)) ∧
    (exOutputFail.status.success = true ↔ exOutputFail.status.code = some 0) :=
  claim_C3_exit_status exEnvExitOne [] "a" "b" "c" "d" "e" exOutputFail none rfl

/-- C2: with the engine binary absent (every spawn fails with `e`), both
`run_prover` and `run_prover_async` return the spawn-classified error, which
is distinct from command, I/O and decode errors.  (`ProverError` lives in
`error.rs`, which is not under `src/`; the classification is modelled from
the spec's error taxonomy.) -/
theorem claim_C2_spawn_failure (env : Env) (fs : FS) (dir : String) (e : IoError)
    (public_input : PublicInput) (memory trace : List Nat)
    (prover_config : ProverConfig) (parameters : ProverParameters)
    (hdir : env.tmpdirResult = .ok dir)
    (hw : ∀ p, env.writeErr p = none)
    (hengine : ∀ inv, env.engine inv = .spawnFailed e) :
    (run_prover env fs public_input memory trace prover_config parameters).1 =
      .error (.spawnError e) ∧
    (run_prover_async env fs public_input memory trace prover_config parameters).1 =
      .error (.spawnError e) ∧
    (∀ o, (ProverError.spawnError e) ≠ .commandError o) ∧
    (∀ e', (ProverError.spawnError e) ≠ .ioError e') ∧
    (∀ m, (ProverError.spawnError e) ≠ .decodeError m) := by
  have hsync :
      (run_prover env fs public_input memory trace prover_config parameters).1 =
        .error (.spawnError e) := by
    simp only [run_prover, prepare_prover_files, hdir, writeSeq, hw,
      run_prover_from_command_line, hengine, ProverError.ofSpawnIo]
  exact ⟨hsync, hsync, fun o => by simp, fun e' => by simp, fun m => by simp⟩

/-- Witness for C2: the concrete absent-binary world. -/
theorem claim_C2_spawn_failure_witness :
    (run_prover exEnvSpawnFail [] exPublicInput [0] [1] exProverConfig
      exProverParameters).1 = .error (.spawnError .notFound) ∧
    (run_prover_async exEnvSpawnFail [] exPublicInput [0] [1] exProverConfig
      exProverParameters).1 = .error (.spawnError .notFound) ∧
    (∀ o, (ProverError.spawnError .notFound) ≠ .commandError o) ∧
    (∀ e', (ProverError.spawnError .notFound) ≠ .ioError e') ∧
    (∀ m, (ProverError.spawnError .notFound) ≠ .decodeError m) :=
  claim_C2_spawn_failure exEnvSpawnFail [] "/tmp/work" .notFound exPublicInput
    [0] [1] exProverConfig exProverParameters rfl (fun _ => rfl) (fun _ => rfl)

/-- Left-cancellation for string concatenation. -/
theorem string_append_left_cancel {a b c : String} (h : a ++ b = a ++ c) : b = c := by
  have hd := congrArg String.data h
  rw [String.data_append, String.data_append] at hd
  exact String.ext (List.append_cancel_left hd)

/-- Reading back the path just written. -/
theorem fsRead_fsWrite_self (fs : FS) (p : String) (c : FileContent) :
    fsRead (fsWrite fs p c) p = some c := by
  simp [fsRead, fsWrite, List.find?]

/-- Counterexample to C5 as stated: at a concrete input the preparation step
succeeds, the `proof.json` path is only reserved in the returned working set —
no write event targets it and the file does not exist afterwards, so
preparation writes four JSON files, not five. -/
theorem claim_C5_counterexample :
    (prepare_prover_files exEnvOk [] exPublicInput [0] [1] exProverConfig
      exProverParameters).1 =
      .ok { dir := ("/tmp/work"),
            public_input_file := ("/tmp/work/public_input.json"),
            private_input_file := ("/tmp/work/private_input.json"),
            memory_file := ("/tmp/work/memory.bin"),
            trace_file := ("/tmp/work/trace.bin"),
            prover_config_file := ("/tmp/work/prover_config_file.json"),
            prover_parameter_file := ("/tmp/work/parameters.json"),
            proof_file := ("/tmp/work/proof.json") } ∧
    fsRead ((prepare_prover_files exEnvOk [] exPublicInput [0] [1] exProverConfig
      exProverParameters).2.1) ("/tmp/work/proof.json") = none ∧
    ((prepare_prover_files exEnvOk [] exPublicInput [0] [1] exProverConfig
      exProverParameters).2.2.all fun ev =>
        match ev with
        | .wroteFile p _ => p != "/tmp/work/proof.json"
        | _ => true) = true :=
  ⟨rfl, rfl, rfl⟩

/-- C5 amended: preparation allocates the temporary directory and writes FOUR
JSON files (public input, prover config, prover parameters, derived private
input) and two binary files (memory, trace), in this order, under the fixed
filenames; the fifth JSON filename `proof.json` is only reserved as the
engine's output path in the returned working set and is not written. -/
theorem claim_C5_prepare_writes (env : Env) (fs : FS) (dir : String)
    (public_input : PublicInput) (memory trace : List Nat)
    (prover_config : ProverConfig) (parameters : ProverParameters)
    (hdir : env.tmpdirResult = .ok dir)
    (hw : ∀ p, env.writeErr p = none) :
    (prepare_prover_files env fs public_input memory trace prover_config
        parameters).1 =
      .ok { dir := dir,
            public_input_file := dir ++ "/public_input.json",
            private_input_file := dir ++ "/private_input.json",
            memory_file := dir ++ "/memory.bin",
            trace_file := dir ++ "/trace.bin",
            prover_config_file := dir ++ "/prover_config_file.json",
            prover_parameter_file := dir ++ "/parameters.json",
            proof_file := dir ++ "/proof.json" } ∧
    (prepare_prover_files env fs public_input memory trace prover_config
        parameters).2.2 =
      [.wroteFile (dir ++ "/public_input.json") (.json (encodePublicInput public_input)),
       .wroteFile (dir ++ "/prover_config_file.json") (.json (encodeProverConfig prover_config)),
       .wroteFile (dir ++ "/parameters.json") (.json (encodeProverParameters parameters)),
       .wroteFile (dir ++ "/memory.bin") (.bin memory),
       .wroteFile (dir ++ "/trace.bin") (.bin trace),
       .wroteFile (dir ++ "/private_input.json")
         (.json (encodePrivateInput
           { memory_path := dir ++ "/memory.bin", trace_path := dir ++ "/trace.bin",
             pedersen := [], range_check := [], ecdsa := [] }))] ∧
    (∀ c, Event.wroteFile (dir ++ "/proof.json") c ∉
      (prepare_prover_files env fs public_input memory trace prover_config
        parameters).2.2) := by
  have hevs : (prepare_prover_files env fs public_input memory trace prover_config
      parameters).2.2 =
      [.wroteFile (dir ++ "/public_input.json") (.json (encodePublicInput public_input)),
       .wroteFile (dir ++ "/prover_config_file.json") (.json (encodeProverConfig prover_config)),
       .wroteFile (dir ++ "/parameters.json") (.json (encodeProverParameters parameters)),
       .wroteFile (dir ++ "/memory.bin") (.bin memory),
       .wroteFile (dir ++ "/trace.bin") (.bin trace),
       .wroteFile (dir ++ "/private_input.json")
         (.json (encodePrivateInput
           { memory_path := dir ++ "/memory.bin", trace_path := dir ++ "/trace.bin",
             pedersen := [], range_check := [], ecdsa := [] }))] := by
    simp only [prepare_prover_files, hdir, writeSeq, hw, List.cons_append,
      List.nil_append]
  refine ⟨?_, hevs, ?_⟩
  · simp only [prepare_prover_files, hdir, writeSeq, hw]
  · intro c hc
    rw [hevs] at hc
    simp only [List.mem_cons, List.not_mem_nil, or_false, Event.wroteFile.injEq] at hc
    rcases hc with ⟨h, -⟩ | ⟨h, -⟩ | ⟨h, -⟩ | ⟨h, -⟩ | ⟨h, -⟩ | ⟨h, -⟩ <;>
      exact absurd (string_append_left_cancel h) (by decide)

/-- Witness for the amended C5 at the concrete working world. -/
theorem claim_C5_prepare_writes_witness :
    (prepare_prover_files exEnvOk [] exPublicInput [0] [1] exProverConfig
        exProverParameters).1 =
      .ok { dir := ("/tmp/work"),
            public_input_file := "/tmp/work" ++ "/public_input.json",
            private_input_file := "/tmp/work" ++ "/private_input.json",
            memory_file := "/tmp/work" ++ "/memory.bin",
            trace_file := "/tmp/work" ++ "/trace.bin",
            prover_config_file := "/tmp/work" ++ "/prover_config_file.json",
            prover_parameter_file := "/tmp/work" ++ "/parameters.json",
            proof_file := "/tmp/work" ++ "/proof.json" } ∧
    (prepare_prover_files exEnvOk [] exPublicInput [0] [1] exProverConfig
        exProverParameters).2.2 =
      [.wroteFile ("/tmp/work" ++ "/public_input.json") (.json (encodePublicInput exPublicInput)),
       .wroteFile ("/tmp/work" ++ "/prover_config_file.json") (.json (encodeProverConfig exProverConfig)),
       .wroteFile ("/tmp/work" ++ "/parameters.json") (.json (encodeProverParameters exProverParameters)),
       .wroteFile ("/tmp/work" ++ "/memory.bin") (.bin [0]),
       .wroteFile ("/tmp/work" ++ "/trace.bin") (.bin [1]),
       .wroteFile ("/tmp/work" ++ "/private_input.json")
         (.json (encodePrivateInput
           { memory_path := "/tmp/work" ++ "/memory.bin",
             trace_path := "/tmp/work" ++ "/trace.bin",
             pedersen := [], range_check := [], ecdsa := [] }))] ∧
    (∀ c, Event.wroteFile ("/tmp/work" ++ "/proof.json") c ∉
      (prepare_prover_files exEnvOk [] exPublicInput [0] [1] exProverConfig
        exProverParameters).2.2) :=
  claim_C5_prepare_writes exEnvOk [] ("/tmp/work") exPublicInput [0] [1]
    exProverConfig exProverParameters rfl (fun _ => rfl)

/-- C6: the private-input descriptor is never caller-supplied: preparation
builds it from the just-written memory/trace paths in the same temporary
directory with empty pedersen/range_check/ecdsa sequences, and serializes
exactly that value to `private_input.json`. -/
theorem claim_C6_private_input_derived (env : Env) (fs : FS) (dir : String)
    (public_input : PublicInput) (memory trace : List Nat)
    (prover_config : ProverConfig) (parameters : ProverParameters)
    (hdir : env.tmpdirResult = .ok dir)
    (hw : ∀ p, env.writeErr p = none) :
    Event.wroteFile (dir ++ "/private_input.json")
        (.json (encodePrivateInput
          { memory_path := dir ++ "/memory.bin", trace_path := dir ++ "/trace.bin",
            pedersen := [], range_check := [], ecdsa := [] })) ∈
      (prepare_prover_files env fs public_input memory trace prover_config
        parameters).2.2 ∧
    fsRead ((prepare_prover_files env fs public_input memory trace prover_config
        parameters).2.1) (dir ++ "/private_input.json") =
      some (.json (encodePrivateInput
        { memory_path := dir ++ "/memory.bin", trace_path := dir ++ "/trace.bin",
          pedersen := [], range_check := [], ecdsa := [] })) := by
  constructor
  · simp only [prepare_prover_files, hdir, writeSeq, hw, List.cons_append,
      List.nil_append]
    simp [List.mem_cons]
  · simp only [prepare_prover_files, hdir, writeSeq, hw]
    exact fsRead_fsWrite_self _ _ _

/-- Witness for C6 at the concrete working world. -/
theorem claim_C6_private_input_derived_witness :
    Event.wroteFile ("/tmp/work" ++ "/private_input.json")
        (.json (encodePrivateInput
          { memory_path := "/tmp/work" ++ "/memory.bin",
            trace_path := "/tmp/work" ++ "/trace.bin",
            pedersen := [], range_check := [], ecdsa := [] })) ∈
      (prepare_prover_files exEnvOk [] exPublicInput [0] [1] exProverConfig
        exProverParameters).2.2 ∧
    fsRead ((prepare_prover_files exEnvOk [] exPublicInput [0] [1] exProverConfig
        exProverParameters).2.1) ("/tmp/work" ++ "/private_input.json") =
      some (.json (encodePrivateInput
        { memory_path := "/tmp/work" ++ "/memory.bin",
          trace_path := "/tmp/work" ++ "/trace.bin",
          pedersen := [], range_check := [], ecdsa := [] })) :=
  claim_C6_private_input_derived exEnvOk [] ("/tmp/work") exPublicInput [0] [1]
    exProverConfig exProverParameters rfl (fun _ => rfl)

/-- `writeSeq` only ever appends file-write events to its accumulator. -/
theorem writeSeq_events (env : Env) :
    ∀ (ps : List (String × FileContent)) (fs : FS) (evs : List Event),
      ∀ ev ∈ (writeSeq env fs evs ps).2.2, ev ∈ evs ∨ ∃ p c, ev = .wroteFile p c := by
  intro ps
  induction ps with
  | nil => intro fs evs ev hev; exact Or.inl hev
  | cons pc rest ih =>
      intro fs evs ev hev
      obtain ⟨p, c⟩ := pc
      rw [writeSeq] at hev
      cases h : env.writeErr p with
      | some e => rw [h] at hev; exact Or.inl hev
      | none =>
          rw [h] at hev
          rcases ih (fsWrite fs p c) (evs ++ [.wroteFile p c]) ev hev with hm | hw
          · rcases List.mem_append.mp hm with hm | hm
            · exact Or.inl hm
            · exact Or.inr ⟨p, c, List.mem_singleton.mp hm⟩
          · exact Or.inr hw

/-- Preparation emits only file-write and directory-removal events — in
particular it never invokes the engine. -/
theorem prepare_events (env : Env) (fs : FS) (public_input : PublicInput)
    (memory trace : List Nat) (prover_config : ProverConfig)
    (parameters : ProverParameters) :
    ∀ ev ∈ (prepare_prover_files env fs public_input memory trace prover_config
      parameters).2.2,
      (∃ p c, ev = .wroteFile p c) ∨ (∃ d, ev = .removedDir d) := by
  intro ev hev
  unfold prepare_prover_files at hev
  split at hev
  · simp at hev
  · dsimp only at hev
    split at hev
    · rename_i heq
      rcases List.mem_append.mp hev with hm | hm
      · have := writeSeq_events env _ _ _ ev (by rw [heq]; exact hm)
        rcases this with hm' | hw
        · simp at hm'
        · exact Or.inl hw
      · exact Or.inr ⟨_, List.mem_singleton.mp hm⟩
    · rename_i heq
      have := writeSeq_events env _ _ _ ev (by rw [heq]; exact hev)
      rcases this with hm' | hw
      · simp at hm'
      · exact Or.inl hw

/-- When the temporary directory is `dir`, a successful preparation returns
the working set whose paths are the seven fixed filenames joined to `dir`. -/
theorem prepare_ok_shape (env : Env) (fs : FS) (public_input : PublicInput)
    (memory trace : List Nat) (prover_config : ProverConfig)
    (parameters : ProverParameters) (dir : String)
    (wd : ProverWorkingDirectory) (fs1 : FS) (evs : List Event)
    (hdir : env.tmpdirResult = .ok dir)
    (hprep : prepare_prover_files env fs public_input memory trace prover_config
      parameters = (.ok wd, fs1, evs)) :
    wd = { dir := dir,
           public_input_file := dir ++ "/public_input.json",
           private_input_file := dir ++ "/private_input.json",
           memory_file := dir ++ "/memory.bin",
           trace_file := dir ++ "/trace.bin",
           prover_config_file := dir ++ "/prover_config_file.json",
           prover_parameter_file := dir ++ "/parameters.json",
           proof_file := dir ++ "/proof.json" } := by
  unfold prepare_prover_files at hprep
  simp only [hdir] at hprep
  split at hprep
  · simp at hprep
  · simp only [Prod.mk.injEq, Except.ok.injEq] at hprep
    exact hprep.1.symm

/-- When the temporary directory is `dir`, a failed preparation has already
removed the directory from the filesystem it returns. -/
theorem prepare_error_fs (env : Env) (fs : FS) (public_input : PublicInput)
    (memory trace : List Nat) (prover_config : ProverConfig)
    (parameters : ProverParameters) (dir : String)
    (err : IoError) (fs1 : FS) (evs : List Event)
    (hdir : env.tmpdirResult = .ok dir)
    (hprep : prepare_prover_files env fs public_input memory trace prover_config
      parameters = (.error err, fs1, evs)) :
    ∃ fs0, fs1 = fsRemoveDir dir fs0 := by
  unfold prepare_prover_files at hprep
  simp only [hdir] at hprep
  split at hprep
  · simp only [Prod.mk.injEq, Except.error.injEq] at hprep
    exact ⟨_, hprep.2.1.symm⟩
  · simp at hprep

/-- Both command-line variants emit exactly one event: the engine invocation
built from their five path arguments. -/
theorem cmdline_trace (env : Env) (fs : FS) (p1 p2 p3 p4 p5 : String) :
    (run_prover_from_command_line env fs p1 p2 p3 p4 p5).2.2 =
      [.invoked (proverInvocation p1 p2 p3 p4 p5)] := by
  unfold run_prover_from_command_line
  dsimp only
  split
  · rfl
  · split <;> rfl

/-- Nothing under `dir` survives `fsRemoveDir dir`. -/
theorem filter_fsRemoveDir (dir : String) (fs : FS) :
    (fsRemoveDir dir fs).filter (fun e => underDir dir e.1) = [] := by
  unfold fsRemoveDir
  induction fs with
  | nil => rfl
  | cons e rest ih =>
      by_cases h : underDir dir e.1
      · simp [h, ih]
      · simp [h, ih]

/-- After a failed preparation, `run_prover` returns that filesystem and
trace unchanged. -/
theorem run_prover_after_error (env : Env) (fs : FS) (public_input : PublicInput)
    (memory trace : List Nat) (prover_config : ProverConfig)
    (parameters : ProverParameters) (err : IoError) (fs1 : FS) (evs1 : List Event)
    (hprep : prepare_prover_files env fs public_input memory trace prover_config
      parameters = (.error err, fs1, evs1)) :
    (run_prover env fs public_input memory trace prover_config parameters).2.2 = evs1 ∧
    (run_prover env fs public_input memory trace prover_config parameters).2.1 = fs1 := by
  unfold run_prover
  simp only [hprep]
  constructor <;> first | rfl | trivial

/-- After a successful preparation the run, on every exit path, appends
exactly one engine invocation built from the working-set paths and one
removal of the working directory, and its final filesystem has the working
directory removed. -/
theorem run_prover_after_ok (env : Env) (fs : FS) (public_input : PublicInput)
    (memory trace : List Nat) (prover_config : ProverConfig)
    (parameters : ProverParameters) (wd : ProverWorkingDirectory)
    (fs1 : FS) (evs1 : List Event)
    (hprep : prepare_prover_files env fs public_input memory trace prover_config
      parameters = (.ok wd, fs1, evs1)) :
    (run_prover env fs public_input memory trace prover_config parameters).2.2 =
      evs1 ++ ([.invoked (proverInvocation wd.public_input_file wd.private_input_file
        wd.prover_config_file wd.prover_parameter_file wd.proof_file)] ++
        [.removedDir wd.dir]) ∧
    (∃ fs2, (run_prover env fs public_input memory trace prover_config
      parameters).2.1 = fsRemoveDir wd.dir fs2) := by
  unfold run_prover
  simp only [hprep]
  rcases hc : run_prover_from_command_line env fs1 wd.public_input_file
      wd.private_input_file wd.prover_config_file wd.prover_parameter_file
      wd.proof_file with ⟨r, fs2, evs2⟩
  have hevs2 : evs2 = [.invoked (proverInvocation wd.public_input_file
      wd.private_input_file wd.prover_config_file wd.prover_parameter_file
      wd.proof_file)] := by
    have := congrArg (fun t => t.2.2) hc
    simp only at this
    rw [← this, cmdline_trace]
  subst hevs2
  cases r with
  | error e =>
      dsimp only
      exact ⟨by rw [List.append_assoc], ⟨fs2, rfl⟩⟩
  | ok u =>
      dsimp only
      cases hr : read_json_from_file fs2 wd.proof_file with
      | error e =>
          dsimp only
          exact ⟨by rw [List.append_assoc], ⟨fs2, rfl⟩⟩
      | ok proof =>
          dsimp only
          exact ⟨by rw [List.append_assoc], ⟨fs2, rfl⟩⟩

/-- C4: every engine invocation performed by either execution mode runs the
fixed program `cpu_air_prover` with exactly the five named flags, each bound
to the corresponding path of the prepared working set, and no other
arguments. -/
theorem claim_C4_invocation_contract (env : Env) (fs : FS) (dir : String)
    (public_input : PublicInput) (memory trace : List Nat)
    (prover_config : ProverConfig) (parameters : ProverParameters)
    (hdir : env.tmpdirResult = .ok dir) :
    (∀ a b c d e, proverInvocation a b c d e =
      { program := ("cpu_air_prover"),
        args := ["--out-file", e, "--public-input-file", a,
                 "--private-input-file", b, "--prover-config-file", c,
                 "--parameter-file", d] }) ∧
    (∀ inv, Event.invoked inv ∈
        (run_prover env fs public_input memory trace prover_config
          parameters).2.2 →
      inv = proverInvocation (dir ++ "/public_input.json")
        (dir ++ "/private_input.json") (dir ++ "/prover_config_file.json")
        (dir ++ "/parameters.json") (dir ++ "/proof.json")) ∧
    (∀ inv, Event.invoked inv ∈
        (run_prover_async env fs public_input memory trace prover_config
          parameters).2.2 →
      inv = proverInvocation (dir ++ "/public_input.json")
        (dir ++ "/private_input.json") (dir ++ "/prover_config_file.json")
        (dir ++ "/parameters.json") (dir ++ "/proof.json")) := by
  have hmain : ∀ inv, Event.invoked inv ∈
      (run_prover env fs public_input memory trace prover_config
        parameters).2.2 →
      inv = proverInvocation (dir ++ "/public_input.json")
        (dir ++ "/private_input.json") (dir ++ "/prover_config_file.json")
        (dir ++ "/parameters.json") (dir ++ "/proof.json") := by
    intro inv hmem
    rcases hpr : prepare_prover_files env fs public_input memory trace
        prover_config parameters with ⟨r1, fs1, evs1⟩
    cases r1 with
    | error err =>
        rw [(run_prover_after_error env fs public_input memory trace
          prover_config parameters err fs1 evs1 hpr).1] at hmem
        rcases prepare_events env fs public_input memory trace prover_config
            parameters _ (by rw [hpr]; exact hmem) with ⟨p, c, h⟩ | ⟨d, h⟩ <;>
          simp at h
    | ok wd =>
        rw [(run_prover_after_ok env fs public_input memory trace prover_config
          parameters wd fs1 evs1 hpr).1] at hmem
        have hwd := prepare_ok_shape env fs public_input memory trace
          prover_config parameters dir wd fs1 evs1 hdir hpr
        rcases List.mem_append.mp hmem with hm | hm
        · rcases prepare_events env fs public_input memory trace prover_config
              parameters _ (by rw [hpr]; exact hm) with ⟨p, c, h⟩ | ⟨d, h⟩ <;>
            simp at h
        · rcases List.mem_append.mp hm with hm' | hm'
          · have := List.mem_singleton.mp hm'
            have hinv : inv = proverInvocation wd.public_input_file
                wd.private_input_file wd.prover_config_file
                wd.prover_parameter_file wd.proof_file := by
              injection this
            rw [hinv, hwd]
          · have := List.mem_singleton.mp hm'
            simp at this
  exact ⟨fun a b c d e => rfl, hmain, hmain⟩

/-- Witness for C4 in the concrete working world: the one invocation made is
exactly the fixed command line over the working-set paths. -/
theorem claim_C4_invocation_contract_witness :
    (∀ a b c d e, proverInvocation a b c d e =
      { program := ("cpu_air_prover"),
        args := ["--out-file", e, "--public-input-file", a,
                 "--private-input-file", b, "--prover-config-file", c,
                 "--parameter-file", d] }) ∧
    (∀ inv, Event.invoked inv ∈
        (run_prover exEnvOk [] exPublicInput [0] [1] exProverConfig
          exProverParameters).2.2 →
      inv = proverInvocation ("/tmp/work" ++ "/public_input.json")
        ("/tmp/work" ++ "/private_input.json")
        ("/tmp/work" ++ "/prover_config_file.json")
        ("/tmp/work" ++ "/parameters.json") ("/tmp/work" ++ "/proof.json")) ∧
    (∀ inv, Event.invoked inv ∈
        (run_prover_async exEnvOk [] exPublicInput [0] [1] exProverConfig
          exProverParameters).2.2 →
      inv = proverInvocation ("/tmp/work" ++ "/public_input.json")
        ("/tmp/work" ++ "/private_input.json")
        ("/tmp/work" ++ "/prover_config_file.json")
        ("/tmp/work" ++ "/parameters.json") ("/tmp/work" ++ "/proof.json")) :=
  claim_C4_invocation_contract exEnvOk [] ("/tmp/work") exPublicInput [0] [1]
    exProverConfig exProverParameters rfl

/-- C7: on every exit path of `run_prover` and `run_prover_async` —
successful return, preparation I/O error, spawn failure, non-zero exit, or
decode failure — the final filesystem holds no file under the temporary
working directory: the directory has been destroyed. -/
theorem claim_C7_cleanup (env : Env) (fs : FS) (dir : String)
    (public_input : PublicInput) (memory trace : List Nat)
    (prover_config : ProverConfig) (parameters : ProverParameters)
    (hdir : env.tmpdirResult = .ok dir) :
    ((run_prover env fs public_input memory trace prover_config
      parameters).2.1.filter (fun e => underDir dir e.1)) = [] ∧
    ((run_prover_async env fs public_input memory trace prover_config
      parameters).2.1.filter (fun e => underDir dir e.1)) = [] := by
  have hmain : ((run_prover env fs public_input memory trace prover_config
      parameters).2.1.filter (fun e => underDir dir e.1)) = [] := by
    rcases hpr : prepare_prover_files env fs public_input memory trace
        prover_config parameters with ⟨r1, fs1, evs1⟩
    cases r1 with
    | error err =>
        rw [(run_prover_after_error env fs public_input memory trace
          prover_config parameters err fs1 evs1 hpr).2]
        obtain ⟨fs0, hfs0⟩ := prepare_error_fs env fs public_input memory trace
          prover_config parameters dir err fs1 evs1 hdir hpr
        rw [hfs0]
        exact filter_fsRemoveDir dir fs0
    | ok wd =>
        obtain ⟨fs2, hfs2⟩ := (run_prover_after_ok env fs public_input memory
          trace prover_config parameters wd fs1 evs1 hpr).2
        rw [hfs2]
        have hwd := prepare_ok_shape env fs public_input memory trace
          prover_config parameters dir wd fs1 evs1 hdir hpr
        rw [show wd.dir = dir from by rw [hwd]]
        exact filter_fsRemoveDir dir fs2
  exact ⟨hmain, hmain⟩

/-- Witness for C7 in the concrete working world. -/
theorem claim_C7_cleanup_witness :
    ((run_prover exEnvOk [] exPublicInput [0] [1] exProverConfig
      exProverParameters).2.1.filter (fun e => underDir ("/tmp/work") e.1)) = [] ∧
    ((run_prover_async exEnvOk [] exPublicInput [0] [1] exProverConfig
      exProverParameters).2.1.filter (fun e => underDir ("/tmp/work") e.1)) = [] :=
  claim_C7_cleanup exEnvOk [] ("/tmp/work") exPublicInput [0] [1]
    exProverConfig exProverParameters rfl

end StoneProver
